import Mathlib

/-!
Verification of the cchat repository (an encrypted group-chat relay server
plus terminal client) against its natural-language specification.

The development shallowly embeds the Python sources:
  * `src/cchat/models.py`  — `Reaction`, `ChatMessage`, payload (de)serialization;
  * `src/cchat/server.py`  — the `ChatServer` ledger, frame handlers and
    history persistence;
  * `src/cchat/client.py`  — the `ChatApp` mirror / view-state machine;
  * `src/cchat/crypto.py`  — consumed as an opaque decryption capability.

JSON values exchanged on the wire and stored in the history file are embedded
by the `JsonValue` inductive; Python dynamic behaviours that the handlers rely
on (truthiness, `dict.get`, attribute errors on non-dict values, the
`except (...)` clauses) are modelled explicitly.  Field values of the two
dataclasses are typed per their annotations in `models.py` (`id : int`, the
rest `str`); frames or history entries carrying differently-typed field values
are outside the model and noted where relevant.
-/

/-- Python exceptions that the embedded code can raise or catch. -/
inductive PyErr where
  | attributeError (attr : String)
  | keyError (key : String)
  | typeError
  | valueError
  deriving DecidableEq, Repr

/-- JSON values, as produced by `json.loads` on a frame or history file.
Objects are association lists with unique keys (as `json.loads` yields). -/
inductive JsonValue where
  | null
  | bool (b : Bool)
  | int (n : Int)
  | str (s : String)
  | arr (items : List JsonValue)
  | obj (fields : List (String × JsonValue))
  deriving Repr

/-- Structural equality test on JSON values (Python `==` restricted to the
JSON fragment; the `bool`/`int` numeric identification of Python is not
needed by any embedded comparison). -/
def JsonValue.beq : JsonValue → JsonValue → Bool
  | .null, .null => true
  | .bool a, .bool b => a == b
  | .int a, .int b => a == b
  | .str a, .str b => a == b
  | .arr a, .arr b => beqList a b
  | .obj a, .obj b => beqFields a b
  | _, _ => false
where
  beqList : List JsonValue → List JsonValue → Bool
    | [], [] => true
    | x :: xs, y :: ys => x.beq y && beqList xs ys
    | _, _ => false
  beqFields : List (String × JsonValue) → List (String × JsonValue) → Bool
    | [], [] => true
    | (k, v) :: xs, (l, w) :: ys => k == l && v.beq w && beqFields xs ys
    | _, _ => false

/-- Python truthiness of a JSON value (`bool(x)`): `None`, `False`, `0`,
`""`, `[]`, `{}` are falsy, everything else truthy. -/
def JsonValue.truthy : JsonValue → Bool
  | .null => false
  | .bool b => b
  | .int n => n != 0
  | .str s => s ≠ ""
  | .arr items => !items.isEmpty
  | .obj fields => !fields.isEmpty

/-- `dict.get(key, default)` on the field list of a JSON object. -/
def jsonGetD (fields : List (String × JsonValue)) (key : String)
    (default : JsonValue) : JsonValue :=
  match fields.find? (fun kv => kv.1 = key) with
  | some kv => kv.2
  | none => default

/-- `dict.get(key)` (default `None`). -/
def jsonGet (fields : List (String × JsonValue)) (key : String) : JsonValue :=
  jsonGetD fields key .null

/-- `key in dict` — whether a key is present at all (needed because
`dict.get(key, default)` uses the default only when the key is absent). -/
def jsonHasKey (fields : List (String × JsonValue)) (key : String) : Bool :=
  (fields.find? (fun kv => kv.1 = key)).isSome

/-- `models.Reaction`: `{emoji, user, timestamp}` (all `str`). -/
structure Reaction where
  emoji : String
  user : String
  timestamp : String
  deriving DecidableEq, Repr

/-- `models.ChatMessage`: `{id: int, user, ciphertext, timestamp: str,
reactions: List[Reaction]}`. -/
structure ChatMessage where
  id : Int
  user : String
  ciphertext : String
  timestamp : String
  reactions : List Reaction := []
  deriving DecidableEq, Repr

namespace Reaction

/-- `reaction.__dict__`, as used by `ChatMessage.to_payload` and the server's
reaction broadcasts: the three fields in declaration order. -/
def toPayload (r : Reaction) : JsonValue :=
  .obj [("emoji", .str r.emoji), ("user", .str r.user),
        ("timestamp", .str r.timestamp)]

/-- `Reaction(**r)`: requires `r` to be an object carrying exactly the keys
`emoji`, `user`, `timestamp` (any extra or missing keyword is a `TypeError`);
values are typed per the dataclass annotations. -/
def fromPayload : JsonValue → Except PyErr Reaction
  | .obj [("emoji", .str e), ("user", .str u), ("timestamp", .str t)] =>
      .ok ⟨e, u, t⟩
  | .obj _ => .error .typeError
  | _ => .error .typeError

/-- The list comprehension `[Reaction(**r) for r in ...]`: builds each
reaction in order, propagating the first exception. -/
def fromPayloadList : List JsonValue → Except PyErr (List Reaction)
  | [] => .ok []
  | r :: rest => do
      let hd ← fromPayload r
      let tl ← fromPayloadList rest
      .ok (hd :: tl)

end Reaction

namespace ChatMessage

/-- `ChatMessage.to_payload` (`models.py`): dict with the five fields, the
reactions serialized via `__dict__`. -/
def to_payload (m : ChatMessage) : JsonValue :=
  .obj [("id", .int m.id), ("user", .str m.user),
        ("ciphertext", .str m.ciphertext), ("timestamp", .str m.timestamp),
        ("reactions", .arr (m.reactions.map Reaction.toPayload))]

/-- `ChatMessage.from_payload` (`models.py`): first builds the reaction list
from `payload.get("reactions", [])`, then reads the four required keys by
subscript (a missing key is a `KeyError`).  Calling `.get` on a non-dict
payload is an `AttributeError`; field values are typed per the dataclass
annotations (a differently-typed value is modelled as a `TypeError`). -/
def from_payload : JsonValue → Except PyErr ChatMessage
  | .obj fields => do
      let reactionsJson := jsonGetD fields "reactions" (.arr [])
      let reactions ←
        match reactionsJson with
        | .arr items => Reaction.fromPayloadList items
        | _ => .error .typeError
      let idv :=
        if jsonHasKey fields "id" then .ok (jsonGet fields "id")
        else Except.error (PyErr.keyError "id")
      let userv :=
        if jsonHasKey fields "user" then .ok (jsonGet fields "user")
        else Except.error (PyErr.keyError "user")
      let ctv :=
        if jsonHasKey fields "ciphertext" then .ok (jsonGet fields "ciphertext")
        else Except.error (PyErr.keyError "ciphertext")
      let tsv :=
        if jsonHasKey fields "timestamp" then .ok (jsonGet fields "timestamp")
        else Except.error (PyErr.keyError "timestamp")
      let idj ← idv
      let userj ← userv
      let ctj ← ctv
      let tsj ← tsv
      match idj, userj, ctj, tsj with
      | .int i, .str u, .str c, .str t =>
          .ok ⟨i, u, c, t, reactions⟩
      | _, _, _, _ => .error .typeError
  | _ => .error (.attributeError "get")

end ChatMessage

/-- The server's ledger state: `ChatServer._messages` and `ChatServer._next_id`
(`server.py`).  The live-connection set and the transport are out of scope;
persistence and broadcast appear as effects (below). -/
structure ServerState where
  messages : List ChatMessage := []
  next_id : Int := 1
  deriving DecidableEq, Repr

/-- Observable side effects of a ledger mutation: a `_save_history` write of
the given JSON payload, or a `_broadcast` of the given JSON event to the
registry (delivery fan-out itself is out of scope). -/
inductive Effect where
  | persist (payload : JsonValue)
  | broadcast (payload : JsonValue)

namespace ChatServer

/-- `ChatServer.__init__` with no (or absent) history file: empty ledger,
`_next_id = 1`. -/
def init : ServerState := {}

/-- The payload written by `ChatServer._save_history`:
`{"next_id": ..., "messages": [...]}` (keys shown here in the sorted order
`json.dumps(..., sort_keys=True)` persists them in). -/
def historyPayload (st : ServerState) : JsonValue :=
  .obj [("messages", .arr (st.messages.map ChatMessage.to_payload)),
        ("next_id", .int st.next_id)]

/-- `payload.get("timestamp", now_iso())`: the default is used only when the
key is absent; `now` stands for `now_iso()`.  (A present non-string timestamp
value is outside the typed model and normalized to `now`.) -/
def msgTimestamp (fields : List (String × JsonValue)) (now : String) : String :=
  if jsonHasKey fields "timestamp" then
    match jsonGet fields "timestamp" with
    | .str t => t
    | _ => now
  else now

/-- `ChatServer._handle_message` (`server.py` lines 102-118): reads `user`
and `ciphertext` with `dict.get`, rejects (no-op, no effects) when either is
falsy (missing, `None` or empty), otherwise appends a message with
`id = _next_id`, increments `_next_id`, persists and broadcasts
`{"type": "message", "message": payload}`.  (Frames whose truthy
`user`/`ciphertext` values are not strings are outside the typed model and
treated as no-ops.) -/
def _handle_message (st : ServerState) (fields : List (String × JsonValue))
    (now : String) : ServerState × List Effect :=
  let userv := jsonGet fields "user"
  let ctv := jsonGet fields "ciphertext"
  if !(userv.truthy && ctv.truthy) then (st, [])
  else
    match userv, ctv with
    | .str user, .str ciphertext =>
        let message : ChatMessage :=
          { id := st.next_id, user := user, ciphertext := ciphertext,
            timestamp := msgTimestamp fields now }
        let st' : ServerState :=
          { messages := st.messages ++ [message], next_id := st.next_id + 1 }
        (st', [.persist (historyPayload st'),
               .broadcast (.obj [("type", .str "message"),
                                 ("message", message.to_payload)])])
    | _, _ => (st, [])

/-- In-place mutation of the first message with the given id (the `next(...)`
target of `_handle_reaction` is the first match, and Python mutates it
in place). -/
def updateFirst : List ChatMessage → Int → (ChatMessage → ChatMessage) →
    List ChatMessage
  | [], _, _ => []
  | m :: rest, mid, f =>
      if m.id = mid then f m :: rest else m :: updateFirst rest mid f

/-- `target.reactions.remove(existing)` where `existing` is the first
reaction whose `(emoji, user)` matches: removes that first match. -/
def removeFirstReaction : List Reaction → String → String → List Reaction
  | [], _, _ => []
  | r :: rest, e, u =>
      if r.emoji = e && r.user = u then rest
      else r :: removeFirstReaction rest e u

/-- `ChatServer._handle_reaction` (`server.py` lines 120-165): reads
`message_id`, `emoji`, `user` and `remove` (default `False`) with `dict.get`;
a falsy `message_id`/`emoji`/`user` is a no-op; an absent target message is a
no-op.  With truthy `remove` it removes the first `(emoji, user)` match (if
none exists: no-op), persists and broadcasts `action: "remove"`.  Otherwise
it appends a fresh reaction — unconditionally, with no duplicate-key check —
persists and broadcasts `action: "add"`.  (A truthy non-int `message_id`
compares unequal to every typed id; truthy non-string `emoji`/`user` values
are outside the typed model and treated as no-ops.) -/
def _handle_reaction (st : ServerState) (fields : List (String × JsonValue))
    (now : String) : ServerState × List Effect :=
  let midv := jsonGet fields "message_id"
  let emojiv := jsonGet fields "emoji"
  let userv := jsonGet fields "user"
  let removev := jsonGetD fields "remove" (.bool false)
  if !(midv.truthy && emojiv.truthy && userv.truthy) then (st, [])
  else
    match midv, emojiv, userv with
    | .int mid, .str emoji, .str user =>
        match st.messages.find? (fun m => m.id = mid) with
        | none => (st, [])
        | some target =>
            if removev.truthy then
              match target.reactions.find?
                  (fun r => r.emoji = emoji && r.user = user) with
              | none => (st, [])
              | some existing =>
                  let st' : ServerState :=
                    { st with
                      messages := updateFirst st.messages mid (fun m =>
                        { m with reactions :=
                            removeFirstReaction m.reactions emoji user }) }
                  (st', [.persist (historyPayload st'),
                         .broadcast (.obj [("type", .str "reaction"),
                                           ("message_id", .int target.id),
                                           ("reaction", existing.toPayload),
                                           ("action", .str "remove")])])
            else
              let reaction : Reaction :=
                { emoji := emoji, user := user, timestamp := now }
              let st' : ServerState :=
                { st with
                  messages := updateFirst st.messages mid (fun m =>
                    { m with reactions := m.reactions ++ [reaction] }) }
              (st', [.persist (historyPayload st'),
                     .broadcast (.obj [("type", .str "reaction"),
                                       ("message_id", .int target.id),
                                       ("reaction", reaction.toPayload),
                                       ("action", .str "add")])])
    | _, _, _ => (st, [])

/-- One inbound frame as seen by the per-connection receive loop:
either raw text `json.loads` rejects, or the parsed JSON value. -/
inductive Inbound where
  | unparseable
  | parsed (v : JsonValue)

/-- The body of the receive loop in `ChatServer.handler` (`server.py` lines
88-98) for a single frame: a `json.JSONDecodeError` is swallowed
(`continue`); on a parsed frame, `payload.get("type")` raises
`AttributeError` when the payload is not a JSON object (uncaught — it ends
the loop); object frames dispatch on `type`, unknown or missing types being
ignored. -/
def handler_step (st : ServerState) (frame : Inbound) (now : String) :
    Except PyErr (ServerState × List Effect) :=
  match frame with
  | .unparseable => .ok (st, [])
  | .parsed (.obj fields) =>
      match jsonGet fields "type" with
      | .str "message" => .ok (_handle_message st fields now)
      | .str "reaction" => .ok (_handle_reaction st fields now)
      | _ => .ok (st, [])
  | .parsed _ => .error (.attributeError "get")

/-- The receive loop over a finite inbound sequence: processes frames in
order, accumulating effects; an uncaught exception terminates the loop
(the connection is then unregistered — registry out of scope). -/
def handler_run (now : String) : ServerState → List Inbound →
    ServerState × List Effect
  | st, [] => (st, [])
  | st, f :: rest =>
      match handler_step st f now with
      | .error _ => (st, [])
      | .ok (st', effs) =>
          let tail := handler_run now st' rest
          (tail.1, effs ++ tail.2)

/-- The ids assigned by successful appends while processing an inbound
sequence, in order (the messages each step adds beyond the previous ledger
length). -/
def assignedIds (now : String) : ServerState → List Inbound → List Int
  | _, [] => []
  | st, f :: rest =>
      match handler_step st f now with
      | .error _ => []
      | .ok (st', _) =>
          ((st'.messages.drop st.messages.length).map (fun m => m.id)) ++
            assignedIds now st' rest

end ChatServer

/-- What reading the history file can yield before seeding: the file is
absent (`FileNotFoundError`), unreadable (other `OSError`), or read text
that `json.loads` either rejects (`none`) or parses to a JSON value. -/
inductive ReadResult where
  | notFound
  | osError
  | content (parsed : Option JsonValue)

/-- The exception classes caught by `_load_history`'s seeding `try`:
`(json.JSONDecodeError, KeyError, TypeError, ValueError)` —
`AttributeError` is NOT among them (a JSON decode failure is represented
directly by `ReadResult.content none`). -/
def caughtBySeed (e : PyErr) : Bool :=
  match e with
  | .keyError _ => true
  | .typeError => true
  | .valueError => true
  | .attributeError _ => false

/-- Python `int(x)` on a JSON value: ints pass through, bools coerce,
strings parse as integer literals (`ValueError` otherwise), and
`None`/lists/objects raise `TypeError`. -/
def pyInt : JsonValue → Except PyErr Int
  | .int n => .ok n
  | .bool b => .ok (if b then 1 else 0)
  | .str s =>
      match s.trim.toInt? with
      | some n => .ok n
      | none => .error .valueError
  | _ => .error .typeError

namespace ChatServer

/-- The list comprehension
`[ChatMessage.from_payload(item) for item in messages]`: builds the seeded
ledger in order, propagating the first exception. -/
def seedMessages : List JsonValue → Except PyErr (List ChatMessage)
  | [] => .ok []
  | item :: rest => do
      let m ← ChatMessage.from_payload item
      let tl ← seedMessages rest
      .ok (m :: tl)

/-- `max(message.id for message in self._messages)` (meaningful only for a
nonempty list, as guarded at the call site). -/
def maxId : List ChatMessage → Int
  | [] => 0
  | m :: rest => rest.foldl (fun a x => max a x.id) m.id

/-- The seeding `try`-body of `_load_history` (`server.py` lines 43-51), on
the parsed JSON value: `payload.get("messages", [])` raises
`AttributeError` on a non-object payload; each entry goes through
`ChatMessage.from_payload`; with seeded messages present `_next_id` becomes
`max(ids) + 1`, otherwise `int(payload.get("next_id", 1))`.  (A present
non-array `messages` value is modelled as the `TypeError` its iteration
raises for non-iterable values.) -/
def seedLedger : JsonValue → Except PyErr ServerState
  | .obj fields => do
      let msgsJson := jsonGetD fields "messages" (.arr [])
      let msgs ←
        match msgsJson with
        | .arr items => seedMessages items
        | _ => Except.error PyErr.typeError
      if msgs.isEmpty then do
        let n ← pyInt (jsonGetD fields "next_id" (.int 1))
        .ok { messages := [], next_id := n }
      else
        .ok { messages := msgs, next_id := maxId msgs + 1 }
  | _ => .error (.attributeError "get")

/-- `ChatServer._load_history` (`server.py` lines 32-53): a missing file, an
unreadable file or undecodable JSON leaves the fresh empty state (the two
failure cases are printed, not raised); on parsed JSON the seeding runs with
`KeyError`/`TypeError`/`ValueError` caught (printed, empty state kept) while
any other exception — notably the `AttributeError` a non-object payload
raises — propagates out of startup. -/
def _load_history : ReadResult → Except PyErr ServerState
  | .notFound => .ok init
  | .osError => .ok init
  | .content none => .ok init
  | .content (some payload) =>
      match seedLedger payload with
      | .ok st => .ok st
      | .error e => if caughtBySeed e then .ok init else .error e

end ChatServer

/-- The opaque symmetric cipher (spec §6): `fernet.decrypt` on a token
either yields the plaintext (`some`) or raises `InvalidToken` (`none`). -/
def FernetOracle : Type := String → Option String

namespace CipherBundle

/-- `CipherBundle.decrypt_text` (`crypto.py` lines 60-64): re-raises the
cipher's `InvalidToken` as a `ValueError`. -/
def decrypt_text (dec : FernetOracle) (token : String) : Except PyErr String :=
  match dec token with
  | some text => .ok text
  | none => .error .valueError

end CipherBundle

/-- The fixed placeholder body rendered for undecryptable messages
(`client.py` line 494). -/
def DECRYPT_PLACEHOLDER : String := "*** Unable to decrypt: check your password ***"

/-- The client's ephemeral view state (`ChatApp.__init__`, `client.py` lines
184-194): scroll flag, unread counter and start index, activity clock,
selection, whether the reaction menu is mounted, connection flag, and the
configured idle threshold.  Times are abstract ticks. -/
structure ViewState where
  user_scrolled_up : Bool := false
  pending_message_count : Nat := 0
  pending_start_index : Option Nat := none
  last_activity : Nat := 0
  selected_message_id : Option Int := none
  menu_open : Bool := false
  connection_ok : Bool := true
  idle_timeout : Nat
  deriving DecidableEq, Repr

/-- The client session: local identity, the mirror of the ledger
(`ClientState.messages`) and the view state. -/
structure AppState where
  user : String
  messages : List ChatMessage := []
  view : ViewState
  deriving DecidableEq, Repr

namespace ChatApp

/-- `ChatApp._should_autoscroll` (`client.py` lines 362-370): false while the
reaction menu or a selection is active or the user has scrolled up;
otherwise whether the log sits at the bottom (`scroll_y >= max_scroll_y`,
supplied by the rendering layer as `at_bottom`). -/
def _should_autoscroll (v : ViewState) (at_bottom : Bool) : Bool :=
  !v.menu_open && v.selected_message_id.isNone && !v.user_scrolled_up &&
    at_bottom

/-- `ChatApp._is_idle` (`client.py` lines 487-488): elapsed time since the
last activity has reached the idle threshold (the clock is monotone, so
`now ≥ last_activity`). -/
def _is_idle (v : ViewState) (now : Nat) : Bool :=
  v.idle_timeout ≤ now - v.last_activity

/-- `ChatApp._clear_pending_messages` (`client.py` lines 468-470): resets the
unread counter and the unread-start index together. -/
def _clear_pending_messages (v : ViewState) : ViewState :=
  { v with pending_message_count := 0, pending_start_index := none }

/-- `ChatApp._mark_activity` (`client.py` lines 481-485): stamps the activity
clock; when the user is not scrolled up, clears the pending counters. -/
def _mark_activity (v : ViewState) (now : Nat) : ViewState :=
  let v := { v with last_activity := now }
  if !v.user_scrolled_up then _clear_pending_messages v else v

/-- `ChatApp.update_scroll_state` (`client.py` lines 440-446): recomputes the
scrolled-up flag from the log position; back at the bottom, clears the
pending counters. -/
def update_scroll_state (v : ViewState) (at_bottom : Bool) : ViewState :=
  let v := { v with user_scrolled_up := !at_bottom }
  if at_bottom then _clear_pending_messages v else v

/-- The state part of `ChatApp.action_scroll_end` (`client.py` lines
225-228): jump to the bottom, drop the scrolled-up flag, clear pending. -/
def action_scroll_end (v : ViewState) : ViewState :=
  _clear_pending_messages { v with user_scrolled_up := false }

/-- The view-state effect of `ChatApp.render_messages` (`client.py` lines
354-359): when autoscroll is due, an idle client is scrolled to the end
(flag dropped, pending KEPT), a non-idle one goes through
`action_scroll_end` (pending cleared). -/
def renderScrollEffect (v : ViewState) (at_bottom : Bool) (now : Nat) :
    ViewState :=
  if _should_autoscroll v at_bottom then
    if _is_idle v now then { v with user_scrolled_up := false }
    else action_scroll_end v
  else v

/-- `ChatApp.feed_message` (`client.py` lines 517-526): a message from
another user arriving while autoscroll is not due or the client is idle
bumps the unread counter, recording the arriving message's index if no
unread run is open; the message is appended to the mirror and the render's
scroll effect applied. -/
def feed_message (st : AppState) (message : ChatMessage) (at_bottom : Bool)
    (now : Nat) : AppState :=
  let v := st.view
  let v :=
    if message.user != st.user &&
        (!(_should_autoscroll v at_bottom) || _is_idle v now) then
      let v := { v with pending_message_count := v.pending_message_count + 1 }
      if v.pending_start_index.isNone then
        { v with pending_start_index := some st.messages.length }
      else v
    else v
  { st with messages := st.messages ++ [message],
            view := renderScrollEffect v at_bottom now }

/-- `ChatApp.feed_reaction_action` (`client.py` lines 531-543) on the mirror
(the trailing `render_messages` call touches only view state): no-op when
the target message is absent; for `action = "remove"` the target keeps only
the reactions whose `(emoji, user)` key differs (every match is dropped);
for any other action the reaction is appended — unconditionally, with no
already-present check. -/
def feed_reaction_action (messages : List ChatMessage) (message_id : Int)
    (reaction : Reaction) (action : String) : List ChatMessage :=
  match messages.find? (fun m => m.id = message_id) with
  | none => messages
  | some _ =>
      if action = "remove" then
        ChatServer.updateFirst messages message_id (fun m =>
          { m with reactions := m.reactions.filter (fun ex =>
              !(ex.emoji = reaction.emoji && ex.user = reaction.user)) })
      else
        ChatServer.updateFirst messages message_id (fun m =>
          { m with reactions := m.reactions ++ [reaction] })

/-- `ChatApp._decrypt` (`client.py` lines 490-494): catches the `ValueError`
of `decrypt_text` and substitutes the placeholder; any other exception
would propagate. -/
def _decrypt (dec : FernetOracle) (ciphertext : String) :
    Except PyErr String :=
  match CipherBundle.decrypt_text dec ciphertext with
  | .ok text => .ok text
  | .error .valueError => .ok DECRYPT_PLACEHOLDER
  | .error e => .error e

/-- The transcript bodies produced by `ChatApp.render_messages` (`client.py`
lines 306-317): each message's body is `self._decrypt(msg.ciphertext)`, in
transcript order; an exception escaping `_decrypt` would abort the whole
render, which the `Except` threading models. -/
def renderBodies (dec : FernetOracle) :
    List ChatMessage → Except PyErr (List String)
  | [] => .ok []
  | m :: rest => do
      let body ← _decrypt dec m.ciphertext
      let tail ← renderBodies dec rest
      .ok (body :: tail)

/-- The method and property names defined in the body of
`class ChatApp(App[None])` in `client.py`.  `_has_reaction` is absent: its
`def` sits inside the module-level function `_restart_args` (after that
function's `return`, lines 573-580), so it is never bound as a `ChatApp`
attribute. -/
def chatAppMethodNames : List String :=
  ["__init__", "connection_ok", "compose", "on_mount", "on_key",
   "on_mouse_down", "action_scroll_end", "send_from_input",
   "open_reaction_menu", "dismiss_reaction_menu", "_position_reaction_menu",
   "send_reaction_from_menu", "reply_to_message_from_menu",
   "render_messages", "_should_autoscroll", "_render_selected_message",
   "_format_reply_lines", "update_scroll_state", "_update_status_indicator",
   "_clear_pending_messages", "_render_new_messages_marker",
   "_mark_activity", "_is_idle", "_decrypt", "_format_reactions",
   "_format_timestamp", "feed_message", "feed_reaction",
   "feed_reaction_action", "set_connection_status", "action_reconnect",
   "restart_requested"]

end ChatApp

/-- The dead local function `_has_reaction` nested inside `_restart_args`
(`client.py` lines 573-580): whether the mirror shows a reaction with the
given emoji from the local user on the given message.  It is written as a
method body but is unreachable (it follows `_restart_args`'s `return` and is
never bound to `ChatApp`). -/
def _has_reaction (st : AppState) (message_id : Int) (emoji : String) :
    Bool :=
  match st.messages.find? (fun m => m.id = message_id) with
  | none => false
  | some target =>
      target.reactions.any (fun r => r.emoji = emoji && r.user = st.user)

namespace ChatApp

/-- `ChatApp.send_reaction_from_menu` (`client.py` lines 279-282): dismisses
the menu (view-only), then computes
`remove = self._has_reaction(message_id, emoji)` — an attribute lookup on
the instance, raising `AttributeError` when the name is bound by neither the
instance nor its class — and would then emit the reaction frame with that
flag.  The returned value is the `remove` flag the emitted frame would
carry. -/
def send_reaction_from_menu (st : AppState) (message_id : Int)
    (emoji : String) : Except PyErr Bool :=
  if chatAppMethodNames.contains "_has_reaction" then
    .ok (_has_reaction st message_id emoji)
  else
    .error (.attributeError "_has_reaction")

end ChatApp

/-- Number of reactions on a message carrying a given `(emoji, user)` key. -/
def keyCount (m : ChatMessage) (emoji user : String) : Nat :=
  (m.reactions.filter (fun r => r.emoji = emoji && r.user = user)).length

/-- The broadcast payloads among a handler's effects. -/
def broadcastsOf (effs : List Effect) : List JsonValue :=
  effs.filterMap (fun e =>
    match e with
    | .broadcast p => some p
    | _ => none)

/-- A well-formed client→server reaction frame with `remove` absent
(defaulting to `False`): the add direction of the toggle. -/
def reactionAddFrame (mid : Int) (emoji user : String) :
    List (String × JsonValue) :=
  [("type", .str "reaction"), ("message_id", .int mid),
   ("emoji", .str emoji), ("user", .str user)]

/-- Concrete ledger for the C1 analysis: one message that already carries a
`("+1", "bob")` reaction. -/
def C1_msg : ChatMessage :=
  { id := 1, user := "alice", ciphertext := "ct", timestamp := "t0",
    reactions := [{ emoji := "+1", user := "bob", timestamp := "t1" }] }

def C1_state : ServerState := { messages := [C1_msg], next_id := 2 }

/-- Mirror message with a single `("+1", "bob")` reaction. -/
def C4_msg : ChatMessage :=
  { id := 1, user := "alice", ciphertext := "ct", timestamp := "t0",
    reactions := [{ emoji := "+1", user := "bob", timestamp := "t1" }] }

/-- Mirror with a single `("+1", "bob")` reaction on message 1. -/
def C4_mirror : List ChatMessage := [C4_msg]

/-- Mirror where message 1 already carries the same key twice. -/
def C4_mirror2 : List ChatMessage :=
  [{ id := 1, user := "alice", ciphertext := "ct", timestamp := "t0",
     reactions := [{ emoji := "+1", user := "bob", timestamp := "t1" },
                   { emoji := "+1", user := "bob", timestamp := "t2" }] }]

/-- Concrete well-formed `message` frame fields. -/
def C6_fields : List (String × JsonValue) :=
  [("type", .str "message"), ("user", .str "alice"),
   ("ciphertext", .str "blob")]

/-- A message from another user, used in the C8 analysis. -/
def C8_msg : ChatMessage := ⟨1, "bob", "ct", "t1", []⟩

/-- Client at the bottom, nothing pending, fresh activity clock, but with the
reaction menu open; idle threshold 15. -/
def C8_menu_app : AppState :=
  { user := "alice", messages := [],
    view := { menu_open := true, idle_timeout := 15 } }

/-- Client that has scrolled up; idle threshold 15. -/
def C8_scrolled_app : AppState :=
  { user := "alice", messages := [],
    view := { user_scrolled_up := true, idle_timeout := 15 } }

/-- Client at the bottom with no overlay and fresh activity; idle
threshold 15. -/
def C8_bottom_app : AppState :=
  { user := "alice", messages := [], view := { idle_timeout := 15 } }

/-- The spec scenario's persisted store:
`{next_id: 3, messages: [{id:1,...}, {id:2,...}]}`. -/
def C7_fields : List (String × JsonValue) :=
  [("next_id", .int 3),
   ("messages", .arr
     [ChatMessage.to_payload ⟨1, "alice", "c1", "t1", []⟩,
      ChatMessage.to_payload ⟨2, "bob", "c2", "t2", []⟩])]

theorem ok_bind {ε α β : Type} (a : α) (f : α → Except ε β) :
    (Except.ok a >>= f : Except ε β) = f a := rfl

theorem error_bind {ε α β : Type} (e : ε) (f : α → Except ε β) :
    (Except.error e >>= f : Except ε β) = .error e := rfl

theorem handle_message_noop (st : ServerState)
    (fields : List (String × JsonValue)) (now : String)
    (h : (jsonGet fields "user").truthy = false ∨
      (jsonGet fields "ciphertext").truthy = false) :
    ChatServer._handle_message st fields now = (st, []) := by
  rcases h with h | h <;>
    simp [ChatServer._handle_message, h]

theorem renderScrollEffect_pending (v : ViewState) (ab : Bool) (now : Nat)
    (h : v.user_scrolled_up = true ∨ ChatApp._is_idle v now = true) :
    (ChatApp.renderScrollEffect v ab now).pending_message_count =
      v.pending_message_count ∧
    (ChatApp.renderScrollEffect v ab now).pending_start_index =
      v.pending_start_index := by
  by_cases hsa : ChatApp._should_autoscroll v ab = true
  · have hflag : v.user_scrolled_up = false := by
      simp [ChatApp._should_autoscroll] at hsa
      tauto
    have hid : ChatApp._is_idle v now = true := by
      rcases h with h | h
      · rw [h] at hflag
        simp at hflag
      · exact h
    simp [ChatApp.renderScrollEffect, hsa, hid]
  · simp [ChatApp.renderScrollEffect, hsa]

theorem updateFirst_length (l : List ChatMessage) (mid : Int)
    (f : ChatMessage → ChatMessage) :
    (ChatServer.updateFirst l mid f).length = l.length := by
  induction l with
  | nil => rfl
  | cons m rest ih =>
      by_cases h : m.id = mid <;>
        simp [ChatServer.updateFirst, h, ih]

theorem find?_updateFirst (l : List ChatMessage) (mid : Int)
    (f : ChatMessage → ChatMessage) (hf : ∀ m, (f m).id = m.id)
    (target : ChatMessage)
    (h : l.find? (fun m => m.id = mid) = some target) :
    (ChatServer.updateFirst l mid f).find? (fun m => m.id = mid) =
      some (f target) := by
  induction l with
  | nil => simp at h
  | cons m rest ih =>
      by_cases hm : m.id = mid
      · have hmt : m = target := by simpa [List.find?_cons, hm] using h
        subst hmt
        simp [ChatServer.updateFirst, hm, List.find?_cons, hf]
      · have h' : rest.find? (fun m => m.id = mid) = some target := by
          simpa [List.find?_cons, hm] using h
        simp [ChatServer.updateFirst, hm, List.find?_cons, ih h']

theorem reaction_roundtrip (r : Reaction) :
    Reaction.fromPayload r.toPayload = .ok r := by
  cases r; rfl

theorem reactions_list_roundtrip (rs : List Reaction) :
    Reaction.fromPayloadList (rs.map Reaction.toPayload) = .ok rs := by
  induction rs with
  | nil => rfl
  | cons r rest ih =>
      simp only [List.map_cons, Reaction.fromPayloadList, reaction_roundtrip, ih]
      rfl

/-- Round-trip helper: `from_payload` inverts `to_payload` on every typed
message (used to evaluate seeded history entries). -/
theorem from_to_payload (m : ChatMessage) :
    ChatMessage.from_payload m.to_payload = .ok m := by
  cases m with
  | mk id user ciphertext timestamp reactions =>
      simp [ChatMessage.from_payload, ChatMessage.to_payload, jsonGetD,
        jsonGet, jsonHasKey, List.find?, reactions_list_roundtrip]
      rfl

theorem handle_message_shape (st : ServerState)
    (fields : List (String × JsonValue)) (now : String) :
    (ChatServer._handle_message st fields now).1 = st ∨
    ∃ m : ChatMessage, m.id = st.next_id ∧
      (ChatServer._handle_message st fields now).1 =
        { messages := st.messages ++ [m], next_id := st.next_id + 1 } := by
  simp only [ChatServer._handle_message]
  split
  · exact Or.inl rfl
  · split
    · exact Or.inr ⟨_, rfl, rfl⟩
    · exact Or.inl rfl

theorem handle_reaction_shape (st : ServerState)
    (fields : List (String × JsonValue)) (now : String) :
    (ChatServer._handle_reaction st fields now).1.next_id = st.next_id ∧
    (ChatServer._handle_reaction st fields now).1.messages.length =
      st.messages.length := by
  simp only [ChatServer._handle_reaction]
  split
  · exact ⟨rfl, rfl⟩
  · split
    · split
      · exact ⟨rfl, rfl⟩
      · split
        · split
          · exact ⟨rfl, rfl⟩
          · exact ⟨rfl, updateFirst_length _ _ _⟩
        · exact ⟨rfl, updateFirst_length _ _ _⟩
    · exact ⟨rfl, rfl⟩

theorem handler_step_ids (st : ServerState) (f : ChatServer.Inbound)
    (now : String) (st' : ServerState) (effs : List Effect)
    (h : ChatServer.handler_step st f now = .ok (st', effs)) :
    ((st'.messages.drop st.messages.length).map (fun m => m.id) = [] ∧
      st'.next_id = st.next_id) ∨
    ((st'.messages.drop st.messages.length).map (fun m => m.id) =
        [st.next_id] ∧
      st'.next_id = st.next_id + 1) := by
  cases f with
  | unparseable =>
      simp only [ChatServer.handler_step, Except.ok.injEq, Prod.mk.injEq] at h
      left
      rw [← h.1]
      simp
  | parsed v =>
      cases v with
      | obj fields =>
          simp only [ChatServer.handler_step] at h
          split at h
          · -- "message" frame
            simp only [Except.ok.injEq] at h
            have hst : st' = (ChatServer._handle_message st fields now).1 := by
              rw [h]
            rcases handle_message_shape st fields now with hm | ⟨m, hid, hm⟩
            · left
              rw [hst, hm]
              simp
            · right
              rw [hst, hm]
              simp [List.drop_left, hid]
          · -- "reaction" frame
            simp only [Except.ok.injEq] at h
            have hst : st' = (ChatServer._handle_reaction st fields now).1 := by
              rw [h]
            obtain ⟨hn, hl⟩ := handle_reaction_shape st fields now
            left
            rw [hst]
            refine ⟨?_, hn⟩
            rw [List.drop_eq_nil_of_le (le_of_eq hl)]
            rfl
          · -- unknown type: dropped
            simp only [Except.ok.injEq, Prod.mk.injEq] at h
            left
            rw [← h.1]
            simp
      | null => simp [ChatServer.handler_step] at h
      | bool b => simp [ChatServer.handler_step] at h
      | int n => simp [ChatServer.handler_step] at h
      | str s => simp [ChatServer.handler_step] at h
      | arr items => simp [ChatServer.handler_step] at h

theorem assignedIds_range (now : String) (st : ServerState)
    (frames : List ChatServer.Inbound) :
    ChatServer.assignedIds now st frames =
      (List.range (ChatServer.assignedIds now st frames).length).map
        (fun (n : Nat) => st.next_id + (n : Int)) := by
  induction frames generalizing st with
  | nil => rfl
  | cons f rest ih =>
      simp only [ChatServer.assignedIds]
      cases hstep : ChatServer.handler_step st f now with
      | error e => rfl
      | ok p =>
          obtain ⟨st', effs⟩ := p
          dsimp only
          rcases handler_step_ids st f now st' effs hstep with
            ⟨hids, hnid⟩ | ⟨hids, hnid⟩
          · rw [hids, List.nil_append, ih st', hnid]
            simp
          · rw [hids, ih st', hnid]
            have hstep_eq : ∀ k : Nat,
                st.next_id :: (List.range k).map
                    (fun (n : Nat) => st.next_id + 1 + (n : Int)) =
                  (List.range (k + 1)).map
                    (fun (n : Nat) => st.next_id + (n : Int)) := by
              intro k
              rw [List.range_succ_eq_map, List.map_cons, List.map_map]
              simp only [Nat.cast_zero, add_zero, List.cons.injEq, true_and]
              apply List.map_congr_left
              intro a _
              simp only [Function.comp_apply]
              push_cast
              ring
            simp only [List.singleton_append, List.length_cons,
              List.length_map, List.length_range]
            exact hstep_eq _

/-- C1: FALSE as stated.  The server's add path has no duplicate-key check:
handling an add frame whose `(message_id, emoji, user)` key already exists on
the target mutates the ledger (the key now appears twice on the message) and
emits a broadcast. -/
theorem C1_counterexample :
    (ChatServer._handle_reaction C1_state
        (reactionAddFrame 1 "+1" "bob") "t2").1 ≠ C1_state ∧
    (broadcastsOf (ChatServer._handle_reaction C1_state
        (reactionAddFrame 1 "+1" "bob") "t2").2).length = 1 ∧
    ((ChatServer._handle_reaction C1_state
        (reactionAddFrame 1 "+1" "bob") "t2").1.messages.map
      (fun m => keyCount m "+1" "bob")) = [2] := by
  refine ⟨by decide, by decide, by decide⟩

/-- C1 as amended: on a `reaction` frame with `remove = false` (default)
whose fields are truthy and whose target message exists, the server appends
a fresh reaction unconditionally — even when the `(message_id, emoji, user)`
key is already present — so the key's multiplicity on the target grows by
one, and it broadcasts `{type: reaction, message_id, reaction, action: add}`;
duplicate keys can therefore accumulate, and handling the same add frame
twice without an intervening remove leaves two reactions with that key. -/
theorem C1_as_amended (st : ServerState) (mid : Int) (emoji user now : String)
    (target : ChatMessage)
    (hmid : mid ≠ 0) (he : emoji ≠ "") (hu : user ≠ "")
    (ht : st.messages.find? (fun m => m.id = mid) = some target) :
    (∃ target',
      (ChatServer._handle_reaction st (reactionAddFrame mid emoji user)
          now).1.messages.find? (fun m => m.id = mid) = some target' ∧
      target'.reactions = target.reactions ++ [⟨emoji, user, now⟩] ∧
      keyCount target' emoji user = keyCount target emoji user + 1) ∧
    broadcastsOf (ChatServer._handle_reaction st
        (reactionAddFrame mid emoji user) now).2 =
      [.obj [("type", .str "reaction"), ("message_id", .int target.id),
             ("reaction", Reaction.toPayload ⟨emoji, user, now⟩),
             ("action", .str "add")]] := by
  have hres : ChatServer._handle_reaction st (reactionAddFrame mid emoji user)
      now =
      ({ st with messages := ChatServer.updateFirst st.messages mid (fun m =>
            { m with reactions := m.reactions ++ [⟨emoji, user, now⟩] }) },
       [.persist (ChatServer.historyPayload
          { st with messages := (ChatServer.updateFirst st.messages mid
              (fun m =>
                { m with
                  reactions := m.reactions ++ [⟨emoji, user, now⟩] })) }),
        .broadcast (.obj [("type", .str "reaction"),
                          ("message_id", .int target.id),
                          ("reaction", Reaction.toPayload ⟨emoji, user, now⟩),
                          ("action", .str "add")])]) := by
    simp [ChatServer._handle_reaction, reactionAddFrame, jsonGet, jsonGetD,
      jsonHasKey, List.find?, JsonValue.truthy, hmid, he, hu, ht]
  refine ⟨⟨{ target with
      reactions := target.reactions ++ [⟨emoji, user, now⟩] }, ?_, ?_, ?_⟩, ?_⟩
  · rw [hres]
    exact find?_updateFirst st.messages mid
      (fun m => { m with reactions := m.reactions ++ [⟨emoji, user, now⟩] })
      (fun m => rfl) target ht
  · rfl
  · simp [keyCount, List.filter_append]
  · rw [hres]
    rfl

/-- Closed witness for `C1_as_amended` at the concrete `C1_state`. -/
theorem C1_witness :
    (∃ target',
      (ChatServer._handle_reaction C1_state (reactionAddFrame 1 "+1" "bob")
          "t2").1.messages.find? (fun m => m.id = 1) = some target' ∧
      target'.reactions = C1_msg.reactions ++ [⟨"+1", "bob", "t2"⟩] ∧
      keyCount target' "+1" "bob" = keyCount C1_msg "+1" "bob" + 1) ∧
    broadcastsOf (ChatServer._handle_reaction C1_state
        (reactionAddFrame 1 "+1" "bob") "t2").2 =
      [.obj [("type", .str "reaction"), ("message_id", .int C1_msg.id),
             ("reaction", Reaction.toPayload ⟨"+1", "bob", "t2"⟩),
             ("action", .str "add")]] :=
  C1_as_amended C1_state 1 "+1" "bob" "t2" C1_msg (by decide) (by decide)
    (by decide) (by decide)

/-- C2: the claim describes the intended behaviour, but the code cannot run
it — `_has_reaction` is defined inside the module-level `_restart_args`
after its `return` (dead code) and is never bound to `ChatApp`, so the
attribute lookup in `send_reaction_from_menu` raises `AttributeError` for
every state, message and emoji; no reaction frame is ever emitted from the
menu. -/
theorem C2_send_reaction_raises (st : AppState) (message_id : Int)
    (emoji : String) :
    ChatApp.send_reaction_from_menu st message_id emoji =
      .error (.attributeError "_has_reaction") := by
  have hcontains : ¬ (ChatApp.chatAppMethodNames.contains "_has_reaction"
      = true) := by decide
  unfold ChatApp.send_reaction_from_menu
  rw [if_neg hcontains]

/-- C3: FALSE as stated.  A frame that is valid JSON but not a JSON object —
here the frame parsing to the empty array — is "not a well-formed
message/reaction object", yet it is not silently dropped:
`payload.get("type")` raises `AttributeError`, which no handler catches, so
the receive loop terminates instead of continuing. -/
theorem C3_counterexample :
    ChatServer.handler_step ChatServer.init (.parsed (.arr [])) "n0" =
      .error (.attributeError "get") ∧
    ChatServer.handler_run "n0" ChatServer.init
      [.parsed (.arr []), .parsed (.obj C6_fields)] =
      (ChatServer.init, []) := by
  constructor
  · rfl
  · rfl

/-- C3 as amended: frames that are unparseable as JSON, and JSON-object
frames that are missing required fields (no/unknown `type`, a `message`
frame with falsy `user`/`ciphertext`, a `reaction` frame with falsy
`message_id`/`emoji`/`user`), are silently dropped — the ledger state is
unchanged, no effect is produced, no exception is raised, and the receive
loop goes on to process the remaining frames exactly as if the frame had
never arrived.  A parsed non-object frame, however, raises `AttributeError`
and terminates the loop. -/
theorem C3_as_amended :
    (∀ (st : ServerState) (now : String),
      ChatServer.handler_step st .unparseable now = .ok (st, [])) ∧
    (∀ (st : ServerState) (fields : List (String × JsonValue)) (now : String),
      jsonGet fields "type" = .str "message" →
      ((jsonGet fields "user").truthy = false ∨
        (jsonGet fields "ciphertext").truthy = false) →
      ChatServer.handler_step st (.parsed (.obj fields)) now = .ok (st, [])) ∧
    (∀ (st : ServerState) (fields : List (String × JsonValue)) (now : String),
      jsonGet fields "type" = .str "reaction" →
      ((jsonGet fields "message_id").truthy = false ∨
        (jsonGet fields "emoji").truthy = false ∨
        (jsonGet fields "user").truthy = false) →
      ChatServer.handler_step st (.parsed (.obj fields)) now = .ok (st, [])) ∧
    (∀ (st : ServerState) (fields : List (String × JsonValue)) (now : String),
      jsonGet fields "type" ≠ .str "message" →
      jsonGet fields "type" ≠ .str "reaction" →
      ChatServer.handler_step st (.parsed (.obj fields)) now = .ok (st, [])) ∧
    (∀ (st : ServerState) (f : ChatServer.Inbound)
        (rest : List ChatServer.Inbound) (now : String),
      ChatServer.handler_step st f now = .ok (st, []) →
      ChatServer.handler_run now st (f :: rest) =
        ChatServer.handler_run now st rest) := by
  refine ⟨fun st now => rfl, ?_, ?_, ?_, ?_⟩
  · intro st fields now htype h
    have hmsg := handle_message_noop st fields now h
    simp [ChatServer.handler_step, htype, hmsg]
  · intro st fields now htype h
    have hrx : ChatServer._handle_reaction st fields now = (st, []) := by
      rcases h with h | h | h <;>
        simp [ChatServer._handle_reaction, h]
    simp [ChatServer.handler_step, htype, hrx]
  · intro st fields now h1 h2
    simp only [ChatServer.handler_step]
  · intro st f rest now hstep
    simp [ChatServer.handler_run, hstep]

/-- Closed witness for `C3_as_amended`: each dropped-frame case at a
concrete input, and the loop continuing past a dropped frame. -/
theorem C3_witness :
    ChatServer.handler_step ChatServer.init .unparseable "n0" =
      .ok (ChatServer.init, []) ∧
    ChatServer.handler_step ChatServer.init
      (.parsed (.obj [("type", .str "message")])) "n0" =
      .ok (ChatServer.init, []) ∧
    ChatServer.handler_step ChatServer.init
      (.parsed (.obj [("type", .str "reaction"), ("emoji", .str "+1")]))
      "n0" = .ok (ChatServer.init, []) ∧
    ChatServer.handler_step ChatServer.init
      (.parsed (.obj [("type", .str "presence")])) "n0" =
      .ok (ChatServer.init, []) ∧
    ChatServer.handler_run "n0" ChatServer.init
      [.unparseable, .parsed (.obj C6_fields)] =
      ChatServer.handler_run "n0" ChatServer.init [.parsed (.obj C6_fields)] := by
  refine ⟨C3_as_amended.1 ChatServer.init "n0", ?_, ?_, ?_, ?_⟩
  · exact C3_as_amended.2.1 ChatServer.init [("type", .str "message")] "n0"
      (by simp [jsonGet, jsonGetD, List.find?])
      (Or.inl (by simp [jsonGet, jsonGetD, List.find?, JsonValue.truthy]))
  · exact C3_as_amended.2.2.1 ChatServer.init
      [("type", .str "reaction"), ("emoji", .str "+1")] "n0"
      (by simp [jsonGet, jsonGetD, List.find?])
      (Or.inl (by simp [jsonGet, jsonGetD, List.find?, JsonValue.truthy]))
  · exact C3_as_amended.2.2.2.1 ChatServer.init [("type", .str "presence")]
      "n0" (by simp [jsonGet, jsonGetD, List.find?])
      (by simp [jsonGet, jsonGetD, List.find?])
  · exact C3_as_amended.2.2.2.2 ChatServer.init .unparseable
      [.parsed (.obj C6_fields)] "n0"
      (C3_as_amended.1 ChatServer.init "n0")

/-- C4: FALSE as stated.  The client's `on_reaction` add path has no
already-present guard: applying an add whose key is already on the target
leaves TWO reactions with that key, not one; and the remove path filters out
EVERY matching `(emoji, user)` pair, not just the first. -/
theorem C4_counterexample :
    ((ChatApp.feed_reaction_action C4_mirror 1 ⟨"+1", "bob", "t2"⟩
        "add").map (fun m => keyCount m "+1" "bob") = [2]) ∧
    ((ChatApp.feed_reaction_action C4_mirror2 1 ⟨"+1", "bob", "t3"⟩
        "remove").map (fun m => keyCount m "+1" "bob") = [0]) := by
  refine ⟨by decide, by decide⟩

/-- C4 as amended: `on_reaction` on the client mirror is a no-op when the
target message is absent; `action = add` appends the reaction to the first
message with the given id unconditionally (duplicate application is NOT
guarded against); `action = remove` drops every reaction on the target whose
`(emoji, user)` key matches. -/
theorem C4_as_amended (messages : List ChatMessage) (mid : Int)
    (r : Reaction) (target : ChatMessage)
    (ht : messages.find? (fun m => m.id = mid) = some target) :
    (∃ target',
      (ChatApp.feed_reaction_action messages mid r "add").find?
          (fun m => m.id = mid) = some target' ∧
      target'.reactions = target.reactions ++ [r]) ∧
    (∃ target',
      (ChatApp.feed_reaction_action messages mid r "remove").find?
          (fun m => m.id = mid) = some target' ∧
      target'.reactions = target.reactions.filter (fun ex =>
        !(ex.emoji = r.emoji && ex.user = r.user))) ∧
    (∀ (msgs : List ChatMessage) (action : String),
      msgs.find? (fun m => m.id = mid) = none →
      ChatApp.feed_reaction_action msgs mid r action = msgs) := by
  refine ⟨⟨{ target with reactions := target.reactions ++ [r] }, ?_, rfl⟩,
    ⟨{ target with reactions := target.reactions.filter (fun ex =>
        !(ex.emoji = r.emoji && ex.user = r.user)) }, ?_, rfl⟩, ?_⟩
  · have hupd := find?_updateFirst messages mid
      (fun m => { m with reactions := m.reactions ++ [r] })
      (fun m => rfl) target ht
    simpa [ChatApp.feed_reaction_action, ht] using hupd
  · have hupd := find?_updateFirst messages mid
      (fun m => { m with reactions := m.reactions.filter (fun ex =>
          !(ex.emoji = r.emoji && ex.user = r.user)) })
      (fun m => rfl) target ht
    simpa [ChatApp.feed_reaction_action, ht] using hupd
  · intro msgs action hnone
    simp [ChatApp.feed_reaction_action, hnone]

/-- Closed witness for `C4_as_amended` at the concrete `C4_mirror`. -/
theorem C4_witness :
    (∃ target',
      (ChatApp.feed_reaction_action C4_mirror 1 ⟨"+1", "bob", "t2"⟩
          "add").find? (fun m => m.id = 1) = some target' ∧
      target'.reactions = C4_msg.reactions ++ [⟨"+1", "bob", "t2"⟩]) ∧
    (∃ target',
      (ChatApp.feed_reaction_action C4_mirror 1 ⟨"+1", "bob", "t2"⟩
          "remove").find? (fun m => m.id = 1) = some target' ∧
      target'.reactions = C4_msg.reactions.filter (fun ex =>
        !(ex.emoji = "+1" && ex.user = "bob"))) ∧
    (∀ (msgs : List ChatMessage) (action : String),
      msgs.find? (fun m => m.id = 1) = none →
      ChatApp.feed_reaction_action msgs 1 ⟨"+1", "bob", "t2"⟩ action =
        msgs) :=
  C4_as_amended C4_mirror 1 ⟨"+1", "bob", "t2"⟩ C4_msg (by decide)

/-- C5: starting from the empty ledger, the ids assigned by the successful
appends of any inbound sequence form exactly the contiguous range 1, 2, …
(in order): strictly increasing positive integers with no gaps and no
repeats, each successful append yielding an id one greater than the
previous, starting at 1. -/
theorem C5_ids_contiguous (now : String) (frames : List ChatServer.Inbound) :
    ChatServer.assignedIds now ChatServer.init frames =
      (List.range
        (ChatServer.assignedIds now ChatServer.init frames).length).map
        (fun (n : Nat) => (n : Int) + 1) ∧
    List.Chain' (fun a b => b = a + 1)
      (ChatServer.assignedIds now ChatServer.init frames) ∧
    ∀ i ∈ ChatServer.assignedIds now ChatServer.init frames, 1 ≤ i := by
  have h := assignedIds_range now ChatServer.init frames
  have hinit : ChatServer.init.next_id = 1 := rfl
  rw [hinit] at h
  have h' : ChatServer.assignedIds now ChatServer.init frames =
      (List.range
        (ChatServer.assignedIds now ChatServer.init frames).length).map
        (fun (n : Nat) => (n : Int) + 1) := by
    conv_lhs => rw [h]
    apply List.map_congr_left
    intro a _
    ring
  refine ⟨h', ?_, ?_⟩
  · rw [h']
    rw [List.chain'_map]
    cases hk : (ChatServer.assignedIds now ChatServer.init frames).length with
    | zero => simp
    | succ k =>
        rw [List.chain'_range_succ]
        intro m _
        push_cast
        ring
  · intro i hi
    rw [h'] at hi
    simp only [List.mem_map, List.mem_range] at hi
    obtain ⟨n, _, rfl⟩ := hi
    omega

/-- C6: handling a `message` frame whose `user` and `ciphertext` are
non-empty strings assigns `id = next_id`, increments `next_id`, appends the
message at the end of the ledger, persists the new snapshot and broadcasts
`{type: message, message: payload}`; a frame whose `user` or `ciphertext` is
missing or empty (falsy) is a complete no-op — state unchanged, nothing
persisted, nothing broadcast. -/
theorem C6_handle_message :
    (∀ (st : ServerState) (fields : List (String × JsonValue))
        (now u c : String),
      jsonGet fields "user" = .str u → u ≠ "" →
      jsonGet fields "ciphertext" = .str c → c ≠ "" →
      ChatServer._handle_message st fields now =
        ({ messages := st.messages ++
            [⟨st.next_id, u, c, ChatServer.msgTimestamp fields now, []⟩],
           next_id := st.next_id + 1 },
         [.persist (ChatServer.historyPayload
            { messages := st.messages ++
                [⟨st.next_id, u, c, ChatServer.msgTimestamp fields now, []⟩],
              next_id := st.next_id + 1 }),
          .broadcast (.obj [("type", .str "message"),
            ("message", ChatMessage.to_payload
              ⟨st.next_id, u, c, ChatServer.msgTimestamp fields now,
               []⟩)])])) ∧
    (∀ (st : ServerState) (fields : List (String × JsonValue)) (now : String),
      (jsonGet fields "user").truthy = false ∨
        (jsonGet fields "ciphertext").truthy = false →
      ChatServer._handle_message st fields now = (st, [])) := by
  constructor
  · intro st fields now u c hu hune hc hcne
    simp [ChatServer._handle_message, hu, hc, JsonValue.truthy, hune, hcne]
  · intro st fields now h
    exact handle_message_noop st fields now h

/-- Closed witness for `C6_handle_message`: the well-formed frame appends
with the next id and effects; the frame missing `user`/`ciphertext` is a
no-op. -/
theorem C6_witness :
    ChatServer._handle_message ChatServer.init C6_fields "n0" =
      ({ messages := [⟨1, "alice", "blob", "n0", []⟩], next_id := 2 },
       [.persist (ChatServer.historyPayload
          { messages := [⟨1, "alice", "blob", "n0", []⟩], next_id := 2 }),
        .broadcast (.obj [("type", .str "message"),
          ("message", ChatMessage.to_payload ⟨1, "alice", "blob", "n0",
            []⟩)])]) ∧
    ChatServer._handle_message ChatServer.init [("type", .str "message")]
      "n0" = (ChatServer.init, []) := by
  constructor
  · have h := C6_handle_message.1 ChatServer.init C6_fields "n0" "alice"
      "blob" (by simp [C6_fields, jsonGet, jsonGetD, List.find?])
      (by decide)
      (by simp [C6_fields, jsonGet, jsonGetD, List.find?]) (by decide)
    simpa [ChatServer.init, C6_fields, ChatServer.msgTimestamp, jsonHasKey,
      List.find?] using h
  · exact C6_handle_message.2 ChatServer.init [("type", .str "message")]
      "n0" (Or.inl (by simp [jsonGet, jsonGetD, List.find?,
        JsonValue.truthy]))

/-- C7: FALSE as stated.  A history store whose content parses as JSON but
whose top level is not an object — here the JSON array `[]` — neither seeds
the ledger nor falls back to an empty ledger: `payload.get("messages", [])`
raises `AttributeError`, which the seeding `except` clause (covering only
`JSONDecodeError`/`KeyError`/`TypeError`/`ValueError`) does not catch, so
startup fails. -/
theorem C7_counterexample :
    ChatServer._load_history (.content (some (.arr []))) =
      .error (.attributeError "get") := by
  rfl

/-- C7 as amended: a missing, unreadable or JSON-undecodable history store
leaves the fresh empty ledger without failing startup; a store parsing to a
JSON object seeds the ledger from its `messages`, setting `next_id` to
`max(message ids) + 1` when messages exist and to the stored `next_id` value
(default 1) when the message list is empty (so restoring
`{next_id: 3, messages: [id 1, id 2]}` makes the next append produce id 3);
a wrong-shaped object whose seeding raises a caught exception class
(`KeyError`/`TypeError`/`ValueError`) also yields the empty ledger
non-fatally — but a store parsing to a non-object raises uncaught and
startup fails. -/
theorem C7_as_amended :
    (ChatServer._load_history .notFound = .ok ChatServer.init ∧
     ChatServer._load_history .osError = .ok ChatServer.init ∧
     ChatServer._load_history (.content none) = .ok ChatServer.init) ∧
    (∀ (fields : List (String × JsonValue)) (items : List JsonValue)
        (msgs : List ChatMessage),
      jsonGetD fields "messages" (.arr []) = .arr items →
      ChatServer.seedMessages items = .ok msgs → msgs ≠ [] →
      ChatServer._load_history (.content (some (.obj fields))) =
        .ok { messages := msgs, next_id := ChatServer.maxId msgs + 1 }) ∧
    (∀ (fields : List (String × JsonValue)) (items : List JsonValue)
        (n : Int),
      jsonGetD fields "messages" (.arr []) = .arr items →
      ChatServer.seedMessages items = .ok [] →
      pyInt (jsonGetD fields "next_id" (.int 1)) = .ok n →
      ChatServer._load_history (.content (some (.obj fields))) =
        .ok { messages := [], next_id := n }) ∧
    (∀ (payload : JsonValue) (e : PyErr),
      ChatServer.seedLedger payload = .error e → caughtBySeed e = true →
      ChatServer._load_history (.content (some payload)) =
        .ok ChatServer.init) := by
  refine ⟨⟨rfl, rfl, rfl⟩, ?_, ?_, ?_⟩
  · intro fields items msgs hmj hseed hne
    have hled : ChatServer.seedLedger (.obj fields) =
        .ok { messages := msgs, next_id := ChatServer.maxId msgs + 1 } := by
      simp only [ChatServer.seedLedger, hmj]
      simp [hseed, ok_bind, List.isEmpty_iff, hne]
    simp [ChatServer._load_history, hled]
  · intro fields items n hmj hseed hn
    have hled : ChatServer.seedLedger (.obj fields) =
        .ok { messages := [], next_id := n } := by
      simp only [ChatServer.seedLedger, hmj]
      simp [hseed, hn, ok_bind]
    simp [ChatServer._load_history, hled]
  · intro payload e hled hcaught
    simp [ChatServer._load_history, hled, hcaught]

/-- Closed witness for `C7_as_amended`: the scenario store restores with
`next_id = 3`, an empty-message store restores the stored `next_id`, a
wrong-shaped object store (a `messages` entry missing its keys) falls back
to the empty ledger, and the failure cases keep the empty ledger. -/
theorem C7_witness :
    ChatServer._load_history (.content (some (.obj C7_fields))) =
      .ok { messages := [⟨1, "alice", "c1", "t1", []⟩,
                         ⟨2, "bob", "c2", "t2", []⟩],
            next_id := 3 } ∧
    ChatServer._load_history (.content (some
        (.obj [("next_id", .int 7), ("messages", .arr [])]))) =
      .ok { messages := [], next_id := 7 } ∧
    ChatServer._load_history (.content (some
        (.obj [("messages", .arr [.obj [("user", .str "x")]])]))) =
      .ok ChatServer.init ∧
    ChatServer._load_history .notFound = .ok ChatServer.init := by
  have hmax : ChatServer.maxId [⟨1, "alice", "c1", "t1", []⟩,
      ⟨2, "bob", "c2", "t2", []⟩] + 1 = 3 := by decide
  refine ⟨?_, ?_, ?_, C7_as_amended.1.1⟩
  · have h := C7_as_amended.2.1 C7_fields
      [ChatMessage.to_payload ⟨1, "alice", "c1", "t1", []⟩,
       ChatMessage.to_payload ⟨2, "bob", "c2", "t2", []⟩]
      [⟨1, "alice", "c1", "t1", []⟩, ⟨2, "bob", "c2", "t2", []⟩]
      (by simp [C7_fields, jsonGetD, List.find?])
      (by simp [ChatServer.seedMessages, from_to_payload, ok_bind])
      (by simp)
    rw [hmax] at h
    exact h
  · exact C7_as_amended.2.2.1 [("next_id", .int 7), ("messages", .arr [])]
      [] 7 (by simp [jsonGetD, List.find?]) rfl
      (by simp [jsonGetD, List.find?, pyInt])
  · exact C7_as_amended.2.2.2 (.obj [("messages",
      .arr [.obj [("user", .str "x")]])]) (.keyError "id")
      (by simp [ChatServer.seedLedger, jsonGetD, List.find?,
        ChatServer.seedMessages, ChatMessage.from_payload, jsonGet,
        jsonHasKey, Reaction.fromPayloadList, ok_bind, error_bind]) rfl

/-- C8: FALSE as stated.  A message from another user arriving while the
client sits at the bottom with fresh (non-idle) activity but with the
reaction menu open increments the unread counter to 1; the claim's "a
message arriving at the bottom while non-idle leaves the counter at 0" does
not account for the menu/selection overlay, which also suppresses
autoscroll and so routes the message into the unread path. -/
theorem C8_counterexample :
    C8_msg.user ≠ C8_menu_app.user ∧
    C8_menu_app.view.user_scrolled_up = false ∧
    ChatApp._is_idle C8_menu_app.view 5 = false ∧
    C8_menu_app.view.pending_message_count = 0 ∧
    (ChatApp.feed_message C8_menu_app C8_msg true 5).view.pending_message_count
      = 1 := by
  refine ⟨by decide, by decide, by decide, by decide, by decide⟩

/-- C8 as amended: a message from another user arriving while the view is
scrolled up or the client is idle increments `pending_unread_count` and
records the arriving message's index if none is recorded; input activity
while not scrolled up, and scrolling back to the bottom, clear the counter
and the recorded index together; and a message arriving at the bottom while
non-idle WITH NO reaction menu or selection active leaves the counter at 0
(cleared by the autoscroll that the render performs). -/
theorem C8_as_amended :
    (∀ (st : AppState) (msg : ChatMessage) (at_bottom : Bool) (now : Nat),
      msg.user ≠ st.user →
      (st.view.user_scrolled_up = true ∨
        ChatApp._is_idle st.view now = true) →
      (ChatApp.feed_message st msg at_bottom now).view.pending_message_count
          = st.view.pending_message_count + 1 ∧
      (ChatApp.feed_message st msg at_bottom now).view.pending_start_index
          = some (st.view.pending_start_index.getD st.messages.length)) ∧
    (∀ (v : ViewState) (now : Nat),
      v.user_scrolled_up = false →
      (ChatApp._mark_activity v now).pending_message_count = 0 ∧
      (ChatApp._mark_activity v now).pending_start_index = none) ∧
    (∀ v : ViewState,
      (ChatApp.update_scroll_state v true).pending_message_count = 0 ∧
      (ChatApp.update_scroll_state v true).pending_start_index = none) ∧
    (∀ (st : AppState) (msg : ChatMessage) (now : Nat),
      msg.user ≠ st.user →
      st.view.menu_open = false →
      st.view.selected_message_id = none →
      st.view.user_scrolled_up = false →
      ChatApp._is_idle st.view now = false →
      (ChatApp.feed_message st msg true now).view.pending_message_count
          = 0 ∧
      (ChatApp.feed_message st msg true now).view.pending_start_index
          = none) := by
  refine ⟨?_, ?_, ?_, ?_⟩
  · intro st msg ab now hneq hcase
    have hbne : (msg.user != st.user) = true := by simp [hneq]
    have hcond : (msg.user != st.user &&
        (!(ChatApp._should_autoscroll st.view ab) ||
          ChatApp._is_idle st.view now)) = true := by
      rcases hcase with h | h
      · simp [hbne, ChatApp._should_autoscroll, h]
      · simp [hbne, h]
    cases hsi : st.view.pending_start_index with
    | none =>
        have hfm : (ChatApp.feed_message st msg ab now).view =
            ChatApp.renderScrollEffect
              { st.view with
                pending_message_count := st.view.pending_message_count + 1,
                pending_start_index := some st.messages.length } ab now := by
          simp [ChatApp.feed_message, hcond, hsi]
        have hp := renderScrollEffect_pending
          { st.view with
            pending_message_count := st.view.pending_message_count + 1,
            pending_start_index := some st.messages.length } ab now hcase
        rw [hfm]
        exact ⟨hp.1, hp.2⟩
    | some i =>
        have hfm : (ChatApp.feed_message st msg ab now).view =
            ChatApp.renderScrollEffect
              { st.view with
                pending_message_count :=
                  st.view.pending_message_count + 1 } ab now := by
          simp [ChatApp.feed_message, hcond, hsi]
        have hp := renderScrollEffect_pending
          { st.view with
            pending_message_count := st.view.pending_message_count + 1 }
          ab now hcase
        rw [hfm]
        rw [hp.1, hp.2, hsi]
        exact ⟨rfl, rfl⟩
  · intro v now h
    simp [ChatApp._mark_activity, ChatApp._clear_pending_messages, h]
  · intro v
    simp [ChatApp.update_scroll_state, ChatApp._clear_pending_messages]
  · intro st msg now hneq h1 h2 h3 h4
    have hsa : ChatApp._should_autoscroll st.view true = true := by
      simp [ChatApp._should_autoscroll, h1, h2, h3]
    simp [ChatApp.feed_message, hsa, h4, ChatApp.renderScrollEffect,
      ChatApp.action_scroll_end, ChatApp._clear_pending_messages]

/-- Closed witness for `C8_as_amended`: a scrolled-up client counts the
arriving message and records index 0; activity at the bottom and scrolling
to the bottom clear both counters; the quiet at-bottom client keeps the
counter at 0. -/
theorem C8_witness :
    ((ChatApp.feed_message C8_scrolled_app C8_msg true 5).view.pending_message_count
        = C8_scrolled_app.view.pending_message_count + 1 ∧
     (ChatApp.feed_message C8_scrolled_app C8_msg true 5).view.pending_start_index
        = some (C8_scrolled_app.view.pending_start_index.getD
            C8_scrolled_app.messages.length)) ∧
    ((ChatApp._mark_activity C8_bottom_app.view 9).pending_message_count = 0 ∧
     (ChatApp._mark_activity C8_bottom_app.view 9).pending_start_index =
       none) ∧
    ((ChatApp.update_scroll_state C8_scrolled_app.view true).pending_message_count
        = 0 ∧
     (ChatApp.update_scroll_state C8_scrolled_app.view true).pending_start_index
        = none) ∧
    ((ChatApp.feed_message C8_bottom_app C8_msg true 5).view.pending_message_count
        = 0 ∧
     (ChatApp.feed_message C8_bottom_app C8_msg true 5).view.pending_start_index
        = none) :=
  ⟨C8_as_amended.1 C8_scrolled_app C8_msg true 5 (by decide)
      (Or.inl (by decide)),
   C8_as_amended.2.1 C8_bottom_app.view 9 (by decide),
   C8_as_amended.2.2.1 C8_scrolled_app.view,
   C8_as_amended.2.2.2 C8_bottom_app C8_msg 5 (by decide) rfl rfl rfl
     (by decide)⟩

/-- C9: rendering the transcript never raises on a decryption failure — for
every cipher oracle and every mirror, the rendered bodies are computed
without an escaping exception, an undecryptable message's body is exactly
the fixed placeholder, and every other message's body is its decryption
(failures are strictly per-message). -/
theorem C9_render_decrypt_failures (dec : FernetOracle)
    (messages : List ChatMessage) :
    ChatApp.renderBodies dec messages =
      .ok (messages.map (fun m =>
        match dec m.ciphertext with
        | some text => text
        | none => DECRYPT_PLACEHOLDER)) := by
  induction messages with
  | nil => rfl
  | cons m rest ih =>
      cases h : dec m.ciphertext <;>
        simp [ChatApp.renderBodies, ChatApp._decrypt,
          CipherBundle.decrypt_text, h, ih] <;> rfl

/-- C10: `ChatMessage.from_payload (m.to_payload) = m` — the wire/persistence
serialization round-trips without loss for every message, every reaction
sequence included. -/
theorem C10_payload_roundtrip (m : ChatMessage) :
    ChatMessage.from_payload m.to_payload = .ok m :=
  from_to_payload m
